import Mathlib

/-!
Verification of the companion-tui repository (a terminal client for the
Companion server, plus PoC variants).  The definitions below are a shallow
embedding of the TypeScript sources:

* the wire data model comes from the protocol type declarations
  (`ContentBlock`, `SessionState`, `ServerMessage`, `StreamEvent`,
  `ClientMessage`);
* `handleMessage`, `finalizeStream`, `ensureStreamingMd`, the permission
  banner and the global key listener come from `src/tui.ts` (the
  companion-tui variant, the one the claims cite);
* `CompanionClient` (last-seen sequence tracking, the subscribe frame sent
  on every connect, the WebSocket message handler) comes from the
  companion-client module;
* `handleCliMessage` and its NDJSON line loop come from the standalone
  server PoC;
* `EventBus.emit` and the `sendToSdk` queue come from `src/sdk-bridge.ts`.

Mutable TypeScript closure variables become fields of explicit state
records; `JSON.parse` (an external runtime facility) is modelled as an
oracle `decode : String -> Option _`, where `none` is a parse exception.
-/

namespace CompanionTui

/-! ### Wire data model (protocol types module) -/

/-- Content blocks of assistant messages.  `Record<string, unknown>` tool
inputs are modelled as association lists of string key/value pairs. -/
inductive ContentBlock where
  | text (text : String)
  | tool_use (id : String) (name : String) (input : List (String × String))
  | tool_result (tool_use_id : String) (content : String) (is_error : Bool)
  | thinking (thinking : String)
deriving DecidableEq, Repr

/-- An MCP server entry of the session snapshot (`{ name, status }`). -/
structure McpServerStatus where
  name : String
  status : String
deriving DecidableEq, Repr

/-- The session snapshot (`SessionState` in the protocol types).  The
floating-point cost is modelled as an integer amount of micro-dollars:
the client only copies the value around, never computes with it. -/
structure SessionState where
  session_id : String
  backend_type : Option String
  model : String
  cwd : String
  tools : List String
  permissionMode : String
  claude_code_version : String
  mcp_servers : List McpServerStatus
  total_cost_usd : Int
  num_turns : Nat
  context_used_percent : Nat
  is_compacting : Bool
deriving DecidableEq, Repr

/-- A `Partial<SessionState>` patch: a field is `none` when the key is
absent from the patch object. -/
structure SessionPatch where
  session_id : Option String
  backend_type : Option (Option String)
  model : Option String
  cwd : Option String
  tools : Option (List String)
  permissionMode : Option String
  claude_code_version : Option String
  mcp_servers : Option (List McpServerStatus)
  total_cost_usd : Option Int
  num_turns : Option Nat
  context_used_percent : Option Nat
  is_compacting : Option Bool
deriving DecidableEq, Repr

/-- A permission request payload. -/
structure PermissionRequest where
  request_id : String
  tool_name : String
  input : List (String × String)
  description : Option String
  tool_use_id : String
  agent_id : Option String
  timestamp : Nat
deriving DecidableEq, Repr

/-- The `result` payload (`ResultData`). -/
structure ResultData where
  subtype : String
  is_error : Bool
  result : Option String
  errors : List String
  duration_ms : Nat
  duration_api_ms : Nat
  num_turns : Nat
  total_cost_usd : Int
  session_id : String
deriving DecidableEq, Repr

/-- Incremental stream deltas (`content_block_delta` payloads). -/
inductive Delta where
  | text_delta (text : String)
  | thinking_delta (thinking : String)
  | input_json_delta (pjson : String)
deriving DecidableEq, Repr

/-- Stream events proxied from the Anthropic API through the CLI. -/
inductive StreamEvent where
  | content_block_start (index : Nat) (content_block : ContentBlock)
  | content_block_delta (index : Nat) (delta : Delta)
  | content_block_stop (index : Nat)
  | message_start (id : String) (model : String)
  | message_delta (stop_reason : String)
  | message_stop
deriving DecidableEq, Repr

/-- Run status carried by `status_change` messages (`null` is `none`). -/
inductive Status where
  | compacting
  | idle
  | running
deriving DecidableEq, Repr

/-- Messages from the Companion server to browser/TUI clients
(`ServerMessage`).  `message_history` and `event_replay` carry nested
message lists, exactly as in the source. -/
inductive ServerMessage where
  | session_init (session : SessionState)
  | session_update (session : SessionPatch)
  | assistant (content : List ContentBlock)
  | stream_event (event : StreamEvent)
  | result (data : ResultData)
  | permission_request (request : PermissionRequest)
  | permission_cancelled (request_id : String)
  | tool_progress (tool_use_id : String) (tool_name : String) (elapsed_time_seconds : Nat)
  | status_change (status : Option Status)
  | error (message : String)
  | cli_disconnected
  | cli_connected
  | user_message (content : String) (sender_client_id : Option String)
  | message_history (messages : List ServerMessage)
  | event_replay (events : List (Nat × ServerMessage))
  | session_name_update (name : String)
  | mcp_status (servers : List McpServerStatus)

/-- Permission response behaviors. -/
inductive Behavior where
  | allow
  | deny
deriving DecidableEq, Repr

/-- Messages from TUI clients to the Companion server (`ClientMessage`).
The random `client_msg_id` UUID attached by the client helpers carries no
information the claims touch and is omitted. -/
inductive ClientMsg where
  | user_message (content : String)
  | permission_response (request_id : String) (behavior : Behavior)
  | session_subscribe (last_seq : Nat) (client_id : String)
  | session_ack (last_seq : Nat)
  | interrupt
  | set_model (model : String)
  | set_permission_mode (mode : String)
  | mcp_get_status
  | mcp_toggle (serverName : String) (enabled : Bool)
  | mcp_reconnect (serverName : String)
deriving DecidableEq, Repr

/-! ### TUI client state (`src/tui.ts`, companion-tui variant)

The mutable closure variables of `main()` plus the fields of `StatusBar`,
the editor flag and the focus of the TUI.  Streaming markdown components
that are no longer live (their `streamingMd` reference was dropped by
`finalizeStream`) stay in the transcript with their text frozen; the
`finalized` list records those frozen texts in insertion order. -/

/-- Which component currently has keyboard focus (`tui.setFocus`). -/
inductive Focus where
  | editor
  | banner
deriving DecidableEq, Repr

/-- The client state of the companion-tui main loop. -/
structure ClientState where
  session : Option SessionState
  isRunning : Bool
  disableSubmit : Bool
  locallyTriggered : Bool
  streamingText : String
  streamingMd : Option String
  loader : Bool
  finalized : List String
  permissionBanner : Option String
  focus : Focus
  lastCtrlC : Nat
  exited : Bool
deriving DecidableEq, Repr

/-- The state right after startup, before any message arrives. -/
def initClientState : ClientState where
  session := none
  isRunning := false
  disableSubmit := false
  locallyTriggered := false
  streamingText := ""
  streamingMd := none
  loader := false
  finalized := []
  permissionBanner := none
  focus := .editor
  lastCtrlC := 0
  exited := false

/-- `removeLoader()`: drop the loader component if present. -/
def removeLoader (st : ClientState) : ClientState :=
  { st with loader := false }

/-- `finalizeStream()`: reset `streamingText` and drop the `streamingMd`
reference.  The markdown component itself stays in the transcript with
its current text, which is what `finalized` records. -/
def finalizeStream (st : ClientState) : ClientState :=
  { st with
      streamingText := ""
      streamingMd := none
      finalized := st.finalized ++ st.streamingMd.toList }

/-- `ensureStreamingMd()`: create an empty streaming markdown component
(removing the loader) unless one already exists. -/
def ensureStreamingMd (st : ClientState) : ClientState :=
  match st.streamingMd with
  | some _ => st
  | none => { st with loader := false, streamingMd := some "" }

/-- The `stream_event` case of `handleMessage`: a `text_delta` appends to
`streamingText` and sets the markdown component's text; `message_stop`
and `message_delta` finalize; every other stream event does nothing. -/
def handleStreamEvent (st : ClientState) (e : StreamEvent) : ClientState :=
  match e with
  | .content_block_delta _ (.text_delta t) =>
      let st1 := ensureStreamingMd st
      { st1 with
          streamingText := st1.streamingText ++ t
          streamingMd := some (st1.streamingText ++ t) }
  | .content_block_delta _ (.thinking_delta _) => st
  | .content_block_delta _ (.input_json_delta _) => st
  | .content_block_stop _ => st
  | .message_stop => finalizeStream st
  | .message_delta _ => finalizeStream st
  | .content_block_start _ _ => st
  | .message_start _ _ => st

/-- `Object.assign(statusBar.session, msg.session)`: every field present
in the patch overwrites, every absent field is kept. -/
def applyPatch (s : SessionState) (p : SessionPatch) : SessionState where
  session_id := p.session_id.getD s.session_id
  backend_type := p.backend_type.getD s.backend_type
  model := p.model.getD s.model
  cwd := p.cwd.getD s.cwd
  tools := p.tools.getD s.tools
  permissionMode := p.permissionMode.getD s.permissionMode
  claude_code_version := p.claude_code_version.getD s.claude_code_version
  mcp_servers := p.mcp_servers.getD s.mcp_servers
  total_cost_usd := p.total_cost_usd.getD s.total_cost_usd
  num_turns := p.num_turns.getD s.num_turns
  context_used_percent := p.context_used_percent.getD s.context_used_percent
  is_compacting := p.is_compacting.getD s.is_compacting

/-- The `result` case of `handleMessage`. -/
def handleResult (st : ClientState) (d : ResultData) : ClientState :=
  let st1 := removeLoader (finalizeStream st)
  let st2 := { st1 with
      isRunning := false
      disableSubmit := false
      locallyTriggered := false }
  let st3 :=
    match st2.permissionBanner with
    | some _ => { st2 with permissionBanner := none, focus := Focus.editor }
    | none => st2
  match st3.session with
  | some s =>
      { st3 with session := some { s with
          total_cost_usd := d.total_cost_usd
          num_turns := d.num_turns } }
  | none => st3

/-- The `status_change` case of `handleMessage`: when a run starts that
this client did not trigger, submitting is disabled and a loader is
shown. -/
def handleStatusChange (st : ClientState) (status : Option Status) : ClientState :=
  let nowRunning := status = some Status.running
  let st1 := { st with isRunning := nowRunning }
  if nowRunning && !st1.locallyTriggered then
    { st1 with disableSubmit := true, loader := true }
  else
    st1

mutual

/-- `handleMessage(msg)` from `src/tui.ts` (companion-tui variant): the
dispatch over incoming server messages.  Cases whose whole effect is to
insert presentation components into the transcript (`user_message`,
`cli_connected`, `error`, ...) leave the modelled state unchanged. -/
def handleMessage (st : ClientState) (m : ServerMessage) : ClientState :=
  match m with
  | .session_init s => { st with session := some s }
  | .session_update p =>
      match st.session with
      | some s => { st with session := some (applyPatch s p) }
      | none => st
  | .assistant _ => removeLoader (finalizeStream st)
  | .stream_event e => handleStreamEvent st e
  | .result d => handleResult st d
  | .permission_request r =>
      { removeLoader st with
          permissionBanner := some r.request_id
          focus := Focus.banner }
  | .permission_cancelled _ =>
      match st.permissionBanner with
      | some _ => { st with permissionBanner := none, focus := Focus.editor }
      | none => st
  | .tool_progress _ _ _ => st
  | .status_change status => handleStatusChange st status
  | .error _ => st
  | .cli_disconnected => st
  | .cli_connected => st
  | .user_message _ _ => st
  | .message_history msgs => handleMessageList st msgs
  | .event_replay evs => handleReplayList st evs
  | .session_name_update _ => st
  | .mcp_status _ => st

/-- The `message_history` replay loop: handle each message in order. -/
def handleMessageList (st : ClientState) : List ServerMessage → ClientState
  | [] => st
  | m :: rest => handleMessageList (handleMessage st m) rest

/-- The `event_replay` loop: handle each replayed message in order. -/
def handleReplayList (st : ClientState) : List (Nat × ServerMessage) → ClientState
  | [] => st
  | (_, m) :: rest => handleReplayList (handleMessage st m) rest

end

/-! ### Keyboard input (`PermissionBanner.handleInput` and the global
input listener of `src/tui.ts`, companion-tui variant)

pi-tui delivers each key first to the listeners registered with
`tui.addInputListener`; a listener returning `consume` stops the key,
otherwise the key goes to the component holding focus.  `process.exit`
inside `cleanup()` is modelled by the `exited` flag: once set, no further
input is processed. -/

/-- The keys the handlers distinguish (`matchesKey`). -/
inductive Key where
  | y
  | n
  | a
  | enter
  | escape
  | ctrlC
  | other (data : String)
deriving DecidableEq, Repr

/-- The `onRespond` closure built in the `permission_request` case of
`handleMessage`: send the permission response, remove the banner, show a
loader while the tool executes, and focus the editor. -/
def respondPermission (st : ClientState) (rid : String) (behavior : Behavior) :
    ClientState × List ClientMsg :=
  ({ st with
      permissionBanner := none
      loader := true
      focus := Focus.editor },
   [ClientMsg.permission_response rid behavior])

/-- `PermissionBanner.handleInput(data)`: `y`/`enter` answer allow,
`n`/`escape` answer deny, and `a` ("always allow") also answers allow;
every other key is ignored. -/
def bannerHandleInput (st : ClientState) (rid : String) (k : Key) :
    ClientState × List ClientMsg :=
  if k = Key.y ∨ k = Key.enter then respondPermission st rid Behavior.allow
  else if k = Key.n ∨ k = Key.escape then respondPermission st rid Behavior.deny
  else if k = Key.a then respondPermission st rid Behavior.allow
  else (st, [])

/-- One key press: the global listener first (escape interrupts a running
turn; ctrl+c interrupts while running, exits when idle, and force-exits
on a double tap within 500 ms), then dispatch to the focused component.
Keys reaching the editor affect only its text buffer, which the model
does not track. -/
def handleKey (st : ClientState) (now : Nat) (k : Key) : ClientState × List ClientMsg :=
  if st.exited then (st, [])
  else if k = Key.escape ∧ st.isRunning then (st, [ClientMsg.interrupt])
  else if k = Key.ctrlC then
    if st.isRunning then
      if now - st.lastCtrlC < 500 then ({ st with exited := true }, [])
      else ({ st with lastCtrlC := now }, [ClientMsg.interrupt])
    else ({ st with exited := true }, [])
  else
    match st.focus, st.permissionBanner with
    | Focus.banner, some rid => bannerHandleInput st rid k
    | _, _ => (st, [])

/-- Process a sequence of timestamped key presses, collecting the frames
sent to the server. -/
def runKeys (st : ClientState) : List (Nat × Key) → ClientState × List ClientMsg
  | [] => (st, [])
  | (t, k) :: rest =>
      let step := handleKey st t k
      let restRun := runKeys step.1 rest
      (restRun.1, step.2 ++ restRun.2)

/-- Count the permission responses for a given request id among outgoing
frames. -/
def countResponsesFor (rid : String) (out : List ClientMsg) : Nat :=
  (out.filter fun m =>
    match m with
    | ClientMsg.permission_response r _ => decide (r = rid)
    | _ => false).length

/-! ### CompanionClient (companion-client module)

`lastSeq` starts at 0; the WebSocket message handler parses each frame
and, when the parsed message carries a numeric `seq`, records it; on
every `open` (first connect and every reconnect) the client sends a
`session_subscribe` frame carrying the current `lastSeq`. -/

/-- A parsed server frame as the client's `lastSeq` tracking sees it: an
optional sequence tag plus an opaque payload. -/
structure WireMsg where
  seq : Option Nat
  payload : String
deriving DecidableEq, Repr

/-- The `if ("seq" in msg && typeof msg.seq === "number")` update of
`lastSeq` for one parsed message. -/
def trackSeq (lastSeq : Nat) (m : WireMsg) : Nat :=
  m.seq.getD lastSeq

/-- The client's `lastSeq` after processing a list of parsed messages. -/
def clientLastSeq (init : Nat) (msgs : List WireMsg) : Nat :=
  msgs.foldl trackSeq init

/-- The frame sent by the `open` handler of `CompanionClient.connect`. -/
def subscribeOnOpen (clientId : String) (lastSeq : Nat) : ClientMsg :=
  ClientMsg.session_subscribe lastSeq clientId

/-- The WebSocket `message` handler of `CompanionClient.connect`:
`JSON.parse` is the oracle `decode`; an unparseable frame is ignored by
an empty catch block (state unchanged, nothing delivered to `onMessage`
and nothing logged), a parsed frame updates `lastSeq` and is delivered.
The result is (new `lastSeq`, messages delivered, diagnostics logged);
the handler has no logging call on any path, so the diagnostics
component is empty in both branches. -/
def clientOnMessage (decode : String → Option WireMsg) (lastSeq : Nat)
    (raw : String) : Nat × List WireMsg × List String :=
  match decode raw with
  | some m => (trackSeq lastSeq m, [m], [])
  | none => (lastSeq, [], [])

/-! ### Backlog replay (modelled from the spec)

The Companion server itself is an external dependency (the
`the-companion` package), not part of this repository; only its client
lives here.  Its replay behavior is therefore modelled from the spec. -/

/-- A sequence-numbered backlog entry. -/
structure SeqEvent where
  seq : Nat
  payload : String
deriving DecidableEq, Repr

/-- Modelled from the spec: the server's Subscriber Registry operation
`subscribe(subscriber_id, last_seq)` is missing from this repository (the
Companion server is external); per the spec it "schedules replay of all
backlog entries with sequence > `last_seq` in order, then seamlessly
continues with live events". -/
def replayFor (backlog : List SeqEvent) (lastSeq : Nat) : List SeqEvent :=
  backlog.filter fun e => decide (lastSeq < e.seq)

/-! ### NDJSON standalone server PoC

The `--sdk-url` wire messages (`CLIMessage`) and `handleCliMessage`, the
per-chunk line loop: split on newlines, trim, skip blank lines, drop
lines `JSON.parse` rejects, forward every parsed message to the browser
socket and then dispatch on its type. -/

/-- NDJSON messages from the Claude Code CLI (`CLIMessage`). -/
inductive CLIMessage where
  | system_init (session_id : String) (model : Option String)
  | assistant (content : List ContentBlock)
  | user (content : String)
  | result (is_error : Bool) (errors : List String) (duration_ms : Nat)
      (total_cost_usd : Int) (num_turns : Nat)
  | control_request (request_id : String) (subtype : String)
      (tool_name : String) (input : List (String × String))
  | stream_event (event : StreamEvent)
  | keep_alive
  | tool_progress (tool_use_id : String) (tool_name : String) (elapsed : Nat)
deriving DecidableEq, Repr

/-- The state of the standalone NDJSON server PoC.  `diags` is the
channel of diagnostics logged for rejected input lines: the catch
branch of the line loop is a bare `continue`, so nothing is ever
appended to it. -/
structure ServerSt where
  cliConnected : Bool
  browserConnected : Bool
  sessionId : Option String
  isRunning : Bool
  disableSubmit : Bool
  streamingText : String
  streamingMd : Option String
  loader : Bool
  finalized : List String
  banner : Option (String × String)
  browserOut : List CLIMessage
  diags : List String
deriving DecidableEq, Repr

/-- The server PoC's `finalizeStream()`. -/
def srvFinalizeStream (s : ServerSt) : ServerSt :=
  { s with
      streamingText := ""
      streamingMd := none
      finalized := s.finalized ++ s.streamingMd.toList }

/-- The server PoC's `ensureStreamingMd()`. -/
def srvEnsureStreamingMd (s : ServerSt) : ServerSt :=
  match s.streamingMd with
  | some _ => s
  | none => { s with loader := false, streamingMd := some "" }

/-- The server PoC's `stream_event` case.  Note the truthiness guard
`event.delta.text`: an empty text delta is skipped. -/
def srvStreamEvent (s : ServerSt) (e : StreamEvent) : ServerSt :=
  match e with
  | .content_block_delta _ (.text_delta t) =>
      if t ≠ "" then
        let s1 := srvEnsureStreamingMd s
        { s1 with
            streamingText := s1.streamingText ++ t
            streamingMd := some (s1.streamingText ++ t) }
      else s
  | .message_stop => srvFinalizeStream s
  | .message_delta _ => srvFinalizeStream s
  | _ => s

/-- The dispatch on one parsed CLI message (the `switch` inside
`handleCliMessage`).  A `user` message has no case and falls through. -/
def processCli (s : ServerSt) (m : CLIMessage) : ServerSt :=
  match m with
  | .system_init sid _ => { s with sessionId := some sid }
  | .assistant _ => { srvFinalizeStream s with loader := false }
  | .user _ => s
  | .result _ _ _ _ _ =>
      { srvFinalizeStream s with
          loader := false
          isRunning := false
          disableSubmit := false }
  | .control_request rid sub tool _ =>
      if sub ≠ "can_use_tool" then s
      else { s with loader := false, banner := some (rid, tool) }
  | .stream_event e => srvStreamEvent s e
  | .keep_alive => s
  | .tool_progress _ _ _ => s

/-- Forward one parsed message to the browser socket, then dispatch. -/
def processCliStep (s : ServerSt) (m : CLIMessage) : ServerSt :=
  processCli { s with browserOut := s.browserOut ++ [m] } m

/-- The body of the line loop for one raw line: trim, skip when blank,
drop silently on a parse exception (the catch is a bare `continue`, so
no diagnostic is logged), otherwise forward and dispatch. -/
def handleCliLine (decode : String → Option CLIMessage) (s : ServerSt)
    (line : String) : ServerSt :=
  let t := line.trim
  if t = "" then s
  else
    match decode t with
    | none => s
    | some m => processCliStep s m

/-- `handleCliMessage(raw)`: split the chunk on newlines and run the line
loop. -/
def handleCliMessage (decode : String → Option CLIMessage) (s : ServerSt)
    (raw : String) : ServerSt :=
  (raw.splitOn "\n").foldl (handleCliLine decode) s

/-- The well-formed lines of a raw chunk: trimmed, non-blank and
parseable, in order. -/
def decodableLines (decode : String → Option CLIMessage) (raw : String) :
    List CLIMessage :=
  (raw.splitOn "\n").filterMap fun line =>
    let t := line.trim
    if t = "" then none else decode t

/-! ### SDK bridge (`src/sdk-bridge.ts`)

`EventBus.emit` loops over the subscribed handlers wrapping each call in
`try { ... } catch { }`.  A handler run is modelled in the exception
monad: `Except.error` is a thrown exception.  `emit` returns the ids of
the handlers that completed normally; an `Except.error` result of `emit`
itself would be an exception escaping the loop. -/

/-- The SDK messages the bus carries (`{ type: string, ... }`). -/
structure SDKMessage where
  type : String
  payload : String
deriving DecidableEq, Repr

/-- A subscribed event handler, identified for bookkeeping, whose run
either completes or throws. -/
structure Handler where
  hid : Nat
  run : SDKMessage → Except String Unit

/-- Whether a handler completes normally on an event. -/
def handlerOk (h : Handler) (e : SDKMessage) : Bool :=
  match h.run e with
  | .ok _ => true
  | .error _ => false

/-- The `try { handler(event) } catch { }` of one loop iteration: a
thrown exception is swallowed, so the step itself never throws. -/
def emitStep (h : Handler) (e : SDKMessage) : Except String (Option Nat) :=
  match h.run e with
  | .ok _ => .ok (some h.hid)
  | .error _ => .ok none

/-- `EventBus.emit(event)`: invoke every handler in order inside the
exception monad (an `error` at any point would abort the remaining
iterations and escape the loop), collecting the ids of the handlers
that completed. -/
def emit (hs : List Handler) (e : SDKMessage) : Except String (List Nat) :=
  match hs with
  | [] => .ok []
  | h :: rest =>
      match emitStep h e with
      | .error err => .error err
      | .ok r =>
          match emit rest e with
          | .error err => .error err
          | .ok rs => .ok (r.toList ++ rs)

/-! ### The `sendToSdk` queue of `src/sdk-bridge.ts`

`messageQueue` and `pendingSend` are the two closure variables;
`sendToSdk` resolves a waiting loop directly or enqueues, and the
`sdkLoop` promise executor dequeues from the front or registers itself
as waiting.  `consumed` records, in order, the contents handed to the
loop. -/

/-- The queue state: `pending` is whether `pendingSend` holds a resolver. -/
structure QueueSt where
  queue : List String
  pending : Bool
  consumed : List String
deriving DecidableEq, Repr

/-- The initial queue state. -/
def qinit : QueueSt := { queue := [], pending := false, consumed := [] }

/-- `sendToSdk(content)`: resolve the waiting loop directly, or append to
the queue. -/
def sendToSdk (s : QueueSt) (content : String) : QueueSt :=
  if s.pending then
    { s with pending := false, consumed := s.consumed ++ [content] }
  else
    { s with queue := s.queue ++ [content] }

/-- The promise executor at the top of `sdkLoop`: dequeue from the front
if possible, otherwise register as waiting. -/
def sdkLoopAwait (s : QueueSt) : QueueSt :=
  match s.queue with
  | c :: rest => { s with queue := rest, consumed := s.consumed ++ [c] }
  | [] => { s with pending := true }

/-- Interleaving events: a `sendToSdk` call (from the TUI editor or a
browser client) or the loop starting its next await. -/
inductive QEvent where
  | send (content : String)
  | awaitMsg
deriving DecidableEq, Repr

/-- One interleaving step. -/
def qstep (s : QueueSt) : QEvent → QueueSt
  | .send c => sendToSdk s c
  | .awaitMsg => sdkLoopAwait s

/-- Run an interleaving. -/
def qrun (s : QueueSt) (evs : List QEvent) : QueueSt :=
  evs.foldl qstep s

/-- The contents passed to `sendToSdk`, in submission order. -/
def arrivals (evs : List QEvent) : List String :=
  evs.filterMap fun e =>
    match e with
    | .send c => some c
    | .awaitMsg => none

/-- Validity of an interleaving: the single-threaded `sdkLoop` creates
its next promise (the `awaitMsg` event) only after the previous one
resolved, i.e. never while `pendingSend` is set. -/
def validTrace (s : QueueSt) : List QEvent → Bool
  | [] => true
  | e :: rest =>
      (e ≠ QEvent.awaitMsg || !s.pending) && validTrace (qstep s e) rest

/-! ### Helper lemmas -/

theorem strJoinNil : String.join [] = "" := rfl

theorem strJoinCons (a : String) (l : List String) :
    String.join (a :: l) = a ++ String.join l := by
  apply String.ext
  simp [String.join_eq, String.data_append]

theorem handleMessageList_append (st : ClientState) (l1 l2 : List ServerMessage) :
    handleMessageList st (l1 ++ l2) = handleMessageList (handleMessageList st l1) l2 := by
  induction l1 generalizing st with
  | nil => simp [handleMessageList]
  | cons m rest ih => simp [handleMessageList, ih]

/-- The stream frame carrying one text delta for block index 0. -/
def deltaFrame (t : String) : ServerMessage :=
  ServerMessage.stream_event (StreamEvent.content_block_delta 0 (Delta.text_delta t))

/-- The frame sequence of one streamed message: a block start, the text
deltas, the block stop, the message stop. -/
def singleMessageFrames (deltas : List String) : List ServerMessage :=
  ServerMessage.stream_event (StreamEvent.content_block_start 0 (ContentBlock.text ""))
    :: (deltas.map deltaFrame
        ++ [ServerMessage.stream_event (StreamEvent.content_block_stop 0),
            ServerMessage.stream_event StreamEvent.message_stop])

/-- Running a list of text deltas from a state whose streaming markdown
component exists and is in sync with `streamingText` appends their
concatenation to both. -/
theorem handleDeltas_open (ts : List String) (st : ClientState)
    (h : st.streamingMd = some st.streamingText) :
    handleMessageList st (ts.map deltaFrame) =
      { st with
          streamingText := st.streamingText ++ String.join ts
          streamingMd := some (st.streamingText ++ String.join ts) } := by
  induction ts generalizing st with
  | nil =>
      simp only [List.map_nil, handleMessageList, strJoinNil, String.append_empty]
      rw [← h]
  | cons t rest ih =>
      simp only [List.map_cons, handleMessageList, deltaFrame, handleMessage,
        handleStreamEvent, ensureStreamingMd, h]
      rw [ih _ rfl]
      simp [strJoinCons, String.append_assoc]

/-! ### Claim C1 -/

/-- Claim C1, counterexample: for a streamed message with zero text
deltas (block-start, block-stop, message-stop), the client produces no
completed streaming component at all — `ensureStreamingMd` only runs on
a delta, so there is nothing to finalize — contradicting the claimed
"exactly one completed message" for every N, at N = 0. -/
theorem C1_counterexample :
    (handleMessageList initClientState (singleMessageFrames [])).finalized.length ≠ 1 := by
  decide

/-- Claim C1 (amended to at least one delta): feeding block-start, N ≥ 1
text deltas, block-stop and message-stop from a fresh streaming state
yields exactly one new completed (frozen) streaming component whose
content is the ordered concatenation of the delta payloads, and resets
the streaming state (`streamingText` empty, no live `streamingMd`) so
the next message starts fresh. -/
theorem C1_reassembly (st : ClientState) (deltas : List String)
    (h1 : st.streamingText = "") (h2 : st.streamingMd = none)
    (h3 : deltas ≠ []) :
    (handleMessageList st (singleMessageFrames deltas)).finalized
        = st.finalized ++ [String.join deltas]
      ∧ (handleMessageList st (singleMessageFrames deltas)).streamingText = ""
      ∧ (handleMessageList st (singleMessageFrames deltas)).streamingMd = none := by
  match deltas, h3 with
  | t :: ts, _ =>
    have hstart :
        handleMessage st (ServerMessage.stream_event
          (StreamEvent.content_block_start 0 (ContentBlock.text ""))) = st := by
      simp [handleMessage, handleStreamEvent]
    have hfirst :
        handleMessage st (deltaFrame t)
          = { st with
                loader := false
                streamingText := st.streamingText ++ t
                streamingMd := some (st.streamingText ++ t) } := by
      simp [deltaFrame, handleMessage, handleStreamEvent, ensureStreamingMd, h2,
        String.empty_append]
    simp only [singleMessageFrames, List.map_cons, List.cons_append, handleMessageList, hstart]
    rw [hfirst, List.append_eq, handleMessageList_append, handleDeltas_open ts _ rfl]
    simp [handleMessageList, handleMessage, handleStreamEvent, finalizeStream,
      h1, strJoinCons, String.empty_append, String.append_assoc]

/-- Claim C1, witness: a two-delta message "Hi" + " there" completes as
"Hi there" and resets the streaming state. -/
theorem C1_witness :
    initClientState.streamingText = "" ∧ initClientState.streamingMd = none
      ∧ (["Hi", " there"] : List String) ≠ []
      ∧ (handleMessageList initClientState (singleMessageFrames ["Hi", " there"])).finalized
          = initClientState.finalized ++ [String.join ["Hi", " there"]]
      ∧ (handleMessageList initClientState (singleMessageFrames ["Hi", " there"])).streamingText = ""
      ∧ (handleMessageList initClientState (singleMessageFrames ["Hi", " there"])).streamingMd = none :=
  ⟨rfl, rfl, by decide,
    C1_reassembly initClientState ["Hi", " there"] rfl rfl (by decide)⟩

/-! ### Claim C2 -/

/-- Claim C2, counterexample: a text delta arriving with no preceding
block-start (the very first message the client sees) is not dropped —
`ensureStreamingMd` opens a fresh streaming accumulator and the payload
is appended, so afterwards an accumulator exists, contradicting the
claimed "it does not reopen or create a block accumulator". -/
theorem C2_counterexample :
    (handleMessage initClientState
        (ServerMessage.stream_event
          (StreamEvent.content_block_delta 0 (Delta.text_delta "x")))).streamingMd
      ≠ none := by
  decide

/-- Claim C2 (amended): a delta for a block with no open accumulator is
not logged-and-dropped; the client opens a fresh streaming accumulator
seeded with the delta payload (also removing any loader).  The handler
is a total function, so no such delta can crash the process — that part
of the claim does hold. -/
theorem C2_orphan_delta_opens (st : ClientState) (i : Nat) (t : String)
    (h : st.streamingMd = none) :
    handleMessage st
        (ServerMessage.stream_event
          (StreamEvent.content_block_delta i (Delta.text_delta t)))
      = { st with
            loader := false
            streamingText := st.streamingText ++ t
            streamingMd := some (st.streamingText ++ t) } := by
  simp [handleMessage, handleStreamEvent, ensureStreamingMd, h]

/-- Claim C2, witness: the orphan delta "x" on the fresh client state
opens an accumulator holding "x". -/
theorem C2_witness :
    initClientState.streamingMd = none
      ∧ handleMessage initClientState
            (ServerMessage.stream_event
              (StreamEvent.content_block_delta 3 (Delta.text_delta "x")))
          = { initClientState with
                loader := false
                streamingText := initClientState.streamingText ++ "x"
                streamingMd := some (initClientState.streamingText ++ "x") } :=
  ⟨rfl, C2_orphan_delta_opens initClientState 3 "x" rfl⟩

/-! ### Claim C4 -/

theorem countResponsesFor_append (rid : String) (a b : List ClientMsg) :
    countResponsesFor rid (a ++ b) = countResponsesFor rid a + countResponsesFor rid b := by
  simp [countResponsesFor, List.filter_append]

theorem countResponsesFor_single (rid r : String) (b : Behavior) :
    countResponsesFor rid [ClientMsg.permission_response r b] ≤ 1 := by
  simp only [countResponsesFor, List.filter_cons]
  split <;> simp

/-- The banner's input handler either answers (through `onRespond`) or
ignores the key. -/
theorem bannerHandleInput_cases (st : ClientState) (r : String) (k : Key) :
    (∃ b, bannerHandleInput st r k = respondPermission st r b)
      ∨ bannerHandleInput st r k = (st, []) := by
  unfold bannerHandleInput
  split
  · exact Or.inl ⟨_, rfl⟩
  · split
    · exact Or.inl ⟨_, rfl⟩
    · split
      · exact Or.inl ⟨_, rfl⟩
      · exact Or.inr rfl

/-- One key press either leaves the banner as it was and sends no
permission response, or closes the banner and sends at most one. -/
theorem handleKey_response_cases (st : ClientState) (now : Nat) (k : Key) (rid : String) :
    ((handleKey st now k).1.permissionBanner = st.permissionBanner
        ∧ countResponsesFor rid (handleKey st now k).2 = 0)
      ∨ ((handleKey st now k).1.permissionBanner = none
        ∧ countResponsesFor rid (handleKey st now k).2 ≤ 1) := by
  unfold handleKey
  split
  · exact Or.inl ⟨rfl, rfl⟩
  · split
    · exact Or.inl ⟨rfl, rfl⟩
    · split
      · split
        · split
          · exact Or.inl ⟨rfl, rfl⟩
          · exact Or.inl ⟨rfl, rfl⟩
        · exact Or.inl ⟨rfl, rfl⟩
      · split
        · rename_i r hf hban
          rcases bannerHandleInput_cases st r k with ⟨b, hb⟩ | hb
          · rw [hb]
            exact Or.inr ⟨rfl, countResponsesFor_single rid r b⟩
          · rw [hb]
            exact Or.inl ⟨rfl, rfl⟩
        · exact Or.inl ⟨rfl, rfl⟩

/-- With no open banner a key press cannot answer: the banner stays
closed and no permission response is sent. -/
theorem handleKey_banner_none (st : ClientState) (now : Nat) (k : Key) (rid : String)
    (h : st.permissionBanner = none) :
    (handleKey st now k).1.permissionBanner = none
      ∧ countResponsesFor rid (handleKey st now k).2 = 0 := by
  unfold handleKey
  split
  · exact ⟨h, rfl⟩
  · split
    · exact ⟨h, rfl⟩
    · split
      · split
        · split
          · exact ⟨h, rfl⟩
          · exact ⟨h, rfl⟩
        · exact ⟨h, rfl⟩
      · split
        · rename_i r hf hban
          rw [h] at hban
          cases hban
        · exact ⟨h, rfl⟩

/-- With no open banner, no sequence of key presses sends any permission
response, and none of them can open a banner. -/
theorem runKeys_no_banner (keys : List (Nat × Key)) (st : ClientState) (rid : String)
    (h : st.permissionBanner = none) :
    countResponsesFor rid (runKeys st keys).2 = 0
      ∧ (runKeys st keys).1.permissionBanner = none := by
  induction keys generalizing st with
  | nil => exact ⟨rfl, h⟩
  | cons tk rest ih =>
      obtain ⟨t, k⟩ := tk
      have hstep := handleKey_banner_none st t k rid h
      have hrest := ih (handleKey st t k).1 hstep.1
      simp only [runKeys]
      refine ⟨?_, hrest.2⟩
      rw [countResponsesFor_append, hstep.2, hrest.1]

/-- Claim C4: answering a permission prompt removes it immediately
(`onRespond` clears the banner), and over any sequence of key presses at
most one permission response is ever sent for a given request id — once
the banner is closed no later key press can produce a second response. -/
theorem C4_at_most_one_response (st : ClientState) (keys : List (Nat × Key))
    (rid : String) (b : Behavior) :
    (respondPermission st rid b).1.permissionBanner = none
      ∧ countResponsesFor rid (runKeys st keys).2 ≤ 1 := by
  refine ⟨rfl, ?_⟩
  induction keys generalizing st with
  | nil => simp [runKeys, countResponsesFor]
  | cons tk rest ih =>
      obtain ⟨t, k⟩ := tk
      simp only [runKeys]
      rw [countResponsesFor_append]
      rcases handleKey_response_cases st t k rid with ⟨_, hc⟩ | ⟨hb, hc⟩
      · have hrest := ih (handleKey st t k).1
        omega
      · have hz := (runKeys_no_banner rest (handleKey st t k).1 rid hb).1
        omega

/-! ### Claim C6 -/

/-- Claim C6: while a turn is running, escape (and a single ctrl+c)
makes the client emit the interrupt frame in that very key-handling
step — the outgoing frames of the step are exactly `[interrupt]`, no
queue is involved and the client state does not change to any waiting
mode — and the client keeps processing events as usual: a subsequent
`result` or non-running `status_change` clears `isRunning`, which is the
only acknowledgement the client ever waits for. -/
theorem C6_interrupt_immediate (st : ClientState) (now : Nat) (d : ResultData)
    (h1 : st.exited = false) (h2 : st.isRunning = true) :
    handleKey st now Key.escape = (st, [ClientMsg.interrupt])
      ∧ (500 ≤ now - st.lastCtrlC →
          handleKey st now Key.ctrlC
            = ({ st with lastCtrlC := now }, [ClientMsg.interrupt]))
      ∧ (handleMessage st (ServerMessage.result d)).isRunning = false
      ∧ (handleMessage st (ServerMessage.status_change (some Status.idle))).isRunning
          = false := by
  refine ⟨?_, ?_, ?_, ?_⟩
  · simp [handleKey, h1, h2]
  · intro hlate
    have : ¬ (now - st.lastCtrlC < 500) := by omega
    simp [handleKey, h1, h2, this]
  · simp only [handleMessage, handleResult]
    split <;> first
      | (dsimp only; split <;> rfl)
      | (split <;> rfl)
  · simp [handleMessage, handleStatusChange]

/-- A concrete running client state for the C6 witness. -/
def runningState : ClientState :=
  { initClientState with isRunning := true }

/-- A concrete result payload for the C6 witness. -/
def sampleResult : ResultData where
  subtype := "success"
  is_error := false
  result := none
  errors := []
  duration_ms := 10
  duration_api_ms := 8
  num_turns := 1
  total_cost_usd := 42
  session_id := "s1"

/-- Claim C6, witness: on a concrete running state, escape emits exactly
one interrupt frame and a concrete `result` clears `isRunning`. -/
theorem C6_witness :
    runningState.exited = false
      ∧ runningState.isRunning = true
      ∧ handleKey runningState 700 Key.escape = (runningState, [ClientMsg.interrupt])
      ∧ (500 ≤ 700 - runningState.lastCtrlC →
          handleKey runningState 700 Key.ctrlC
            = ({ runningState with lastCtrlC := 700 }, [ClientMsg.interrupt]))
      ∧ (handleMessage runningState (ServerMessage.result sampleResult)).isRunning = false
      ∧ (handleMessage runningState
            (ServerMessage.status_change (some Status.idle))).isRunning = false :=
  ⟨rfl, rfl, C6_interrupt_immediate runningState 700 sampleResult rfl rfl⟩

/-! ### Claim C7 -/

/-- Claim C7: `session_update` is a shallow merge — for every snapshot
field, a patch that names the field makes it take the patch's value, and
a patch that omits it leaves it unchanged — while `session_init` fully
replaces the snapshot with the incoming session state. -/
theorem C7_shallow_merge (st : ClientState) (s s2 : SessionState) (p : SessionPatch)
    (h : st.session = some s) :
    (handleMessage st (ServerMessage.session_init s2)).session = some s2
      ∧ (handleMessage st (ServerMessage.session_update p)).session
          = some (applyPatch s p)
      ∧ (∀ v, p.session_id = some v → (applyPatch s p).session_id = v)
      ∧ (p.session_id = none → (applyPatch s p).session_id = s.session_id)
      ∧ (∀ v, p.backend_type = some v → (applyPatch s p).backend_type = v)
      ∧ (p.backend_type = none → (applyPatch s p).backend_type = s.backend_type)
      ∧ (∀ v, p.model = some v → (applyPatch s p).model = v)
      ∧ (p.model = none → (applyPatch s p).model = s.model)
      ∧ (∀ v, p.cwd = some v → (applyPatch s p).cwd = v)
      ∧ (p.cwd = none → (applyPatch s p).cwd = s.cwd)
      ∧ (∀ v, p.tools = some v → (applyPatch s p).tools = v)
      ∧ (p.tools = none → (applyPatch s p).tools = s.tools)
      ∧ (∀ v, p.permissionMode = some v → (applyPatch s p).permissionMode = v)
      ∧ (p.permissionMode = none → (applyPatch s p).permissionMode = s.permissionMode)
      ∧ (∀ v, p.claude_code_version = some v → (applyPatch s p).claude_code_version = v)
      ∧ (p.claude_code_version = none →
          (applyPatch s p).claude_code_version = s.claude_code_version)
      ∧ (∀ v, p.mcp_servers = some v → (applyPatch s p).mcp_servers = v)
      ∧ (p.mcp_servers = none → (applyPatch s p).mcp_servers = s.mcp_servers)
      ∧ (∀ v, p.total_cost_usd = some v → (applyPatch s p).total_cost_usd = v)
      ∧ (p.total_cost_usd = none → (applyPatch s p).total_cost_usd = s.total_cost_usd)
      ∧ (∀ v, p.num_turns = some v → (applyPatch s p).num_turns = v)
      ∧ (p.num_turns = none → (applyPatch s p).num_turns = s.num_turns)
      ∧ (∀ v, p.context_used_percent = some v → (applyPatch s p).context_used_percent = v)
      ∧ (p.context_used_percent = none →
          (applyPatch s p).context_used_percent = s.context_used_percent)
      ∧ (∀ v, p.is_compacting = some v → (applyPatch s p).is_compacting = v)
      ∧ (p.is_compacting = none → (applyPatch s p).is_compacting = s.is_compacting) := by
  refine ⟨rfl, by simp [handleMessage, h], ?_⟩
  repeat'
    constructor
  all_goals
    first
      | (intro v hv; simp [applyPatch, hv])
      | (intro hv; simp [applyPatch, hv])

/-- A concrete session snapshot for the C7 witness. -/
def sampleSession : SessionState where
  session_id := "s1"
  backend_type := none
  model := "m1"
  cwd := "/w"
  tools := ["Bash"]
  permissionMode := "default"
  claude_code_version := "2.0"
  mcp_servers := []
  total_cost_usd := 0
  num_turns := 0
  context_used_percent := 0
  is_compacting := false

/-- A concrete replacement snapshot for the C7 witness. -/
def sampleInit : SessionState where
  session_id := "s2"
  backend_type := none
  model := "m9"
  cwd := "/w2"
  tools := []
  permissionMode := "plan"
  claude_code_version := "2.1"
  mcp_servers := []
  total_cost_usd := 1
  num_turns := 2
  context_used_percent := 3
  is_compacting := true

/-- A concrete patch (naming only `model` and `total_cost_usd`) for the
C7 witness. -/
def samplePatch : SessionPatch where
  session_id := none
  backend_type := none
  model := some "m2"
  cwd := none
  tools := none
  permissionMode := none
  claude_code_version := none
  mcp_servers := none
  total_cost_usd := some 7
  num_turns := none
  context_used_percent := none
  is_compacting := none

/-- Claim C7, witness: on a concrete snapshot, a `session_init` replaces
the whole snapshot and a `session_update` applies the shallow merge; the
merged snapshot takes the patched `model` and keeps the unpatched `cwd`. -/
theorem C7_witness :
    ({ initClientState with session := some sampleSession } : ClientState).session
        = some sampleSession
      ∧ (handleMessage { initClientState with session := some sampleSession }
            (ServerMessage.session_init sampleInit)).session = some sampleInit
      ∧ (handleMessage { initClientState with session := some sampleSession }
            (ServerMessage.session_update samplePatch)).session
          = some (applyPatch sampleSession samplePatch)
      ∧ (applyPatch sampleSession samplePatch).model = "m2"
      ∧ (applyPatch sampleSession samplePatch).cwd = "/w" :=
  ⟨rfl,
    (C7_shallow_merge _ sampleSession sampleInit samplePatch rfl).1,
    (C7_shallow_merge _ sampleSession sampleInit samplePatch rfl).2.1,
    by decide, by decide⟩

/-! ### Claim C9 -/

/-- Claim C9: with the permission banner focused, the "always allow" key
`a` produces exactly the same state transition and the same single
outgoing frame as the plain allow key `y`: a `permission_response` with
behavior `allow`, the banner removed, a loader shown and focus returned
to the editor — no allow-rule store or any other state is touched. -/
theorem C9_always_allow_is_allow (st : ClientState) (now : Nat) (rid : String)
    (hf : st.focus = Focus.banner) (hb : st.permissionBanner = some rid)
    (he : st.exited = false) :
    handleKey st now Key.a = handleKey st now Key.y
      ∧ handleKey st now Key.a
          = ({ st with permissionBanner := none, loader := true, focus := Focus.editor },
             [ClientMsg.permission_response rid Behavior.allow]) := by
  constructor
  · simp [handleKey, he, hf, hb, bannerHandleInput, respondPermission]
  · simp [handleKey, he, hf, hb, bannerHandleInput, respondPermission]

/-- A concrete client state with an open permission banner for the C9
witness. -/
def bannerState : ClientState :=
  { initClientState with focus := Focus.banner, permissionBanner := some "r1" }

/-- The state after the C9 witness banner is answered. -/
def answeredState : ClientState :=
  { initClientState with focus := Focus.editor, permissionBanner := none, loader := true }

/-- Claim C9, witness: on a concrete state with an open banner, key `a`
and key `y` agree and both send the allow response. -/
theorem C9_witness :
    bannerState.focus = Focus.banner
      ∧ bannerState.permissionBanner = some "r1"
      ∧ handleKey bannerState 0 Key.a = handleKey bannerState 0 Key.y
      ∧ handleKey bannerState 0 Key.a
          = (answeredState, [ClientMsg.permission_response "r1" Behavior.allow]) :=
  ⟨rfl, rfl,
    (C9_always_allow_is_allow bannerState 0 "r1" rfl rfl rfl).1,
    (C9_always_allow_is_allow bannerState 0 "r1" rfl rfl rfl).2⟩

/-! ### Claim C3 -/

/-- The client's `lastSeq` after a message list is the `seq` of the last
seq-tagged message it processed (or the starting value if none was
tagged). -/
theorem clientLastSeq_eq_lastTagged (msgs : List WireMsg) (init : Nat) :
    clientLastSeq init msgs = ((msgs.filterMap WireMsg.seq).getLast?).getD init := by
  induction msgs generalizing init with
  | nil => rfl
  | cons m rest ih =>
      have hcons : clientLastSeq init (m :: rest) = clientLastSeq (trackSeq init m) rest := rfl
      rw [hcons]
      cases hs : m.seq with
      | none =>
          rw [show trackSeq init m = init by simp [trackSeq, hs], ih init]
          simp [List.filterMap_cons, hs]
      | some n =>
          rw [show trackSeq init m = n by simp [trackSeq, hs], ih n]
          simp only [List.filterMap_cons, hs]
          rw [List.getLast?_cons]
          cases (rest.filterMap WireMsg.seq).getLast? <;> rfl

/-- Claim C3: the client tracks `lastSeq` as the seq of the last
seq-tagged message it processed and sends exactly that value in the
`session_subscribe` frame on every (re)connect; against the spec-modelled
server registry, the replayed backlog followed by the live events is
exactly the list of events with sequence greater than `last_seq`, in
strictly increasing sequence order with no duplicates. -/
theorem C3_replay_exact (clientId : String) (init : Nat) (msgs : List WireMsg)
    (backlog live : List SeqEvent) (lastSeq : Nat)
    (hb : List.Pairwise (· < ·) (backlog.map SeqEvent.seq))
    (hlive : List.Pairwise (· < ·) (live.map SeqEvent.seq))
    (hl : ∀ e ∈ live, lastSeq < e.seq)
    (hbl : ∀ b ∈ backlog, ∀ e ∈ live, b.seq < e.seq) :
    clientLastSeq init msgs = ((msgs.filterMap WireMsg.seq).getLast?).getD init
      ∧ subscribeOnOpen clientId (clientLastSeq init msgs)
          = ClientMsg.session_subscribe (clientLastSeq init msgs) clientId
      ∧ replayFor backlog lastSeq ++ live
          = (backlog ++ live).filter (fun e => decide (lastSeq < e.seq))
      ∧ List.Pairwise (· < ·) ((replayFor backlog lastSeq ++ live).map SeqEvent.seq)
      ∧ ((replayFor backlog lastSeq ++ live).map SeqEvent.seq).Nodup := by
  have hfilter : live.filter (fun e => decide (lastSeq < e.seq)) = live :=
    List.filter_eq_self.mpr fun e he => by simpa using hl e he
  have hreplay : List.Pairwise (· < ·) ((replayFor backlog lastSeq).map SeqEvent.seq) :=
    List.Pairwise.sublist
      (List.Sublist.map SeqEvent.seq (List.filter_sublist backlog)) hb
  have hpair : List.Pairwise (· < ·)
      ((replayFor backlog lastSeq ++ live).map SeqEvent.seq) := by
    rw [List.map_append, List.pairwise_append]
    refine ⟨hreplay, hlive, ?_⟩
    intro a ha c hc
    obtain ⟨b, hbmem, rfl⟩ := List.mem_map.mp ha
    obtain ⟨e, hemem, rfl⟩ := List.mem_map.mp hc
    exact hbl b (List.mem_of_mem_filter hbmem) e hemem
  refine ⟨clientLastSeq_eq_lastTagged msgs init, rfl, ?_, hpair, ?_⟩
  · rw [List.filter_append, hfilter]
    rfl
  · exact hpair.imp Nat.ne_of_lt

/-- A concrete parsed-message sequence for the C3 witness: seqs 1, an
untagged message, then 2. -/
def sampleMsgs : List WireMsg :=
  [{ seq := some 1, payload := "x" }, { seq := none, payload := "y" },
   { seq := some 2, payload := "z" }]

/-- A concrete backlog for the C3 witness. -/
def sampleBacklog : List SeqEvent :=
  [{ seq := 1, payload := "a" }, { seq := 2, payload := "b" },
   { seq := 3, payload := "c" }]

/-- A concrete live tail for the C3 witness. -/
def sampleLive : List SeqEvent :=
  [{ seq := 4, payload := "d" }]

/-- Claim C3, witness: with a backlog of seqs 1,2,3, live seq 4 and
`last_seq` 2 (the last seq-tagged message the client processed), the
subscriber receives exactly the events with seq 3 and 4, in order. -/
theorem C3_witness :
    List.Pairwise (· < ·) (sampleBacklog.map SeqEvent.seq)
      ∧ List.Pairwise (· < ·) (sampleLive.map SeqEvent.seq)
      ∧ (∀ e ∈ sampleLive, 2 < e.seq)
      ∧ (∀ b ∈ sampleBacklog, ∀ e ∈ sampleLive, b.seq < e.seq)
      ∧ clientLastSeq 0 sampleMsgs
          = ((sampleMsgs.filterMap WireMsg.seq).getLast?).getD 0
      ∧ subscribeOnOpen "tui-1" (clientLastSeq 0 sampleMsgs)
          = ClientMsg.session_subscribe (clientLastSeq 0 sampleMsgs) "tui-1"
      ∧ replayFor sampleBacklog 2 ++ sampleLive
          = (sampleBacklog ++ sampleLive).filter (fun e => decide (2 < e.seq))
      ∧ List.Pairwise (· < ·)
          ((replayFor sampleBacklog 2 ++ sampleLive).map SeqEvent.seq)
      ∧ ((replayFor sampleBacklog 2 ++ sampleLive).map SeqEvent.seq).Nodup :=
  ⟨by decide, by decide, by decide, by decide,
    C3_replay_exact "tui-1" 0 sampleMsgs sampleBacklog sampleLive 2
      (by decide) (by decide) (by decide) (by decide)⟩

/-! ### Claim C5 -/

/-- The line loop only sees the decodable lines: blank and unparseable
lines fall through without touching the state. -/
theorem foldl_handleCliLine (decode : String → Option CLIMessage)
    (lines : List String) (s : ServerSt) :
    lines.foldl (handleCliLine decode) s
      = (lines.filterMap fun line =>
          let t := line.trim
          if t = "" then none else decode t).foldl processCliStep s := by
  induction lines generalizing s with
  | nil => rfl
  | cons line rest ih =>
      simp only [List.foldl_cons, List.filterMap_cons]
      by_cases ht : line.trim = ""
      · simp only [handleCliLine, ht, if_pos rfl]
        simpa [ht] using ih s
      · cases hd : decode line.trim with
        | none =>
            simp only [handleCliLine, ht, if_neg ht, hd]
            simpa [ht, hd] using ih s
        | some m =>
            simp only [handleCliLine, ht, if_neg ht, hd, List.foldl_cons]
            simpa [ht, hd] using ih (processCliStep s m)

/-- Dispatching a parsed CLI message never changes the CLI connection
handle: only the socket open/close callbacks do. -/
theorem processCliStep_cliConnected (s : ServerSt) (m : CLIMessage) :
    (processCliStep s m).cliConnected = s.cliConnected := by
  cases m with
  | system_init sid mo => rfl
  | assistant c => rfl
  | user c => rfl
  | result a b c d f => rfl
  | keep_alive => rfl
  | tool_progress a b c => rfl
  | control_request rid sub tool inp =>
      simp only [processCliStep, processCli]
      split
      · rfl
      · rfl
  | stream_event e =>
      cases e with
      | content_block_delta i d =>
          cases d with
          | text_delta t =>
              simp only [processCliStep, processCli, srvStreamEvent]
              split
              · simp only [srvEnsureStreamingMd]
                split
                · rfl
                · rfl
              · rfl
          | thinking_delta t => rfl
          | input_json_delta t => rfl
      | content_block_start i b => rfl
      | content_block_stop i => rfl
      | message_start a b => rfl
      | message_delta r => rfl
      | message_stop => rfl

/-- The CLI connection handle survives processing any list of parsed
messages. -/
theorem foldl_processCliStep_cliConnected (ms : List CLIMessage) (s : ServerSt) :
    (ms.foldl processCliStep s).cliConnected = s.cliConnected := by
  induction ms generalizing s with
  | nil => rfl
  | cons m rest ih =>
      rw [List.foldl_cons, ih (processCliStep s m), processCliStep_cliConnected]

/-- Dispatching a parsed CLI message never logs a line diagnostic. -/
theorem processCliStep_diags (s : ServerSt) (m : CLIMessage) :
    (processCliStep s m).diags = s.diags := by
  cases m with
  | system_init sid mo => rfl
  | assistant c => rfl
  | user c => rfl
  | result a b c d f => rfl
  | keep_alive => rfl
  | tool_progress a b c => rfl
  | control_request rid sub tool inp =>
      simp only [processCliStep, processCli]
      split
      · rfl
      · rfl
  | stream_event e =>
      cases e with
      | content_block_delta i d =>
          cases d with
          | text_delta t =>
              simp only [processCliStep, processCli, srvStreamEvent]
              split
              · simp only [srvEnsureStreamingMd]
                split
                · rfl
                · rfl
              · rfl
          | thinking_delta t => rfl
          | input_json_delta t => rfl
      | content_block_start i b => rfl
      | content_block_stop i => rfl
      | message_start a b => rfl
      | message_delta r => rfl
      | message_stop => rfl

/-- No list of parsed messages ever logs a line diagnostic. -/
theorem foldl_processCliStep_diags (ms : List CLIMessage) (s : ServerSt) :
    (ms.foldl processCliStep s).diags = s.diags := by
  induction ms generalizing s with
  | nil => rfl
  | cons m rest ih =>
      rw [List.foldl_cons, ih (processCliStep s m), processCliStep_diags]

/-- The always-failing decoder standing in for `JSON.parse` on garbage
input, for the C5 counterexample and witness. -/
def decodeNothing : String → Option CLIMessage := fun _ => none

/-- The always-failing wire decoder for the C5 counterexample and
witness. -/
def decodeNothingW : String → Option WireMsg := fun _ => none

/-- The server PoC state at startup, for the C5 counterexample and
witness. -/
def initServerSt : ServerSt where
  cliConnected := true
  browserConnected := false
  sessionId := none
  isRunning := false
  disableSubmit := false
  streamingText := ""
  streamingMd := none
  loader := false
  finalized := []
  banner := none
  browserOut := []
  diags := []

/-- Claim C5, counterexample: a concrete malformed frame is dropped but
produces zero diagnostics — the client handler's catch block ignores it
and logs nothing, and the NDJSON server's catch is a bare `continue` —
contradicting the claimed "dropped with a diagnostic". -/
theorem C5_counterexample :
    (clientOnMessage decodeNothingW 7 "not json").2.2 = []
      ∧ (handleCliMessage decodeNothing initServerSt "garbage\nlines").diags.length
          = 0 := by
  constructor
  · rfl
  · rw [show handleCliMessage decodeNothing initServerSt "garbage\nlines"
        = (decodableLines decodeNothing "garbage\nlines").foldl
            processCliStep initServerSt
        from foldl_handleCliLine decodeNothing _ _]
    rw [foldl_processCliStep_diags]
    rfl

/-- Claim C5 (amended: dropped silently, without a diagnostic): an
unparseable WebSocket frame on the Companion client is dropped —
`lastSeq` unchanged, nothing delivered to `onMessage`, nothing logged,
the handler returns normally; and in the NDJSON server's line loop a
chunk behaves exactly as its decodable lines — blank and malformed
lines are skipped without any diagnostic, the remaining lines are
processed in order — and no decode failure ever touches the CLI
connection handle. -/
theorem C5_malformed_dropped (decodeW : String → Option WireMsg) (lastSeq : Nat)
    (rawW : String) (decode : String → Option CLIMessage) (s : ServerSt)
    (raw : String) (h : decodeW rawW = none) :
    clientOnMessage decodeW lastSeq rawW = (lastSeq, [], [])
      ∧ handleCliMessage decode s raw
          = (decodableLines decode raw).foldl processCliStep s
      ∧ (handleCliMessage decode s raw).cliConnected = s.cliConnected
      ∧ (handleCliMessage decode s raw).diags = s.diags := by
  have hfold := foldl_handleCliLine decode (raw.splitOn "\n") s
  have hunfold : handleCliMessage decode s raw
      = (decodableLines decode raw).foldl processCliStep s := hfold
  refine ⟨by simp [clientOnMessage, h], hunfold, ?_, ?_⟩
  · rw [hunfold]
    exact foldl_processCliStep_cliConnected _ _
  · rw [hunfold]
    exact foldl_processCliStep_diags _ _

/-- Claim C5, witness: a chunk of two garbage lines leaves the server
state untouched with the CLI connection up and no diagnostic logged,
and a garbage client frame leaves `lastSeq` at 7 with nothing delivered
and nothing logged. -/
theorem C5_witness :
    decodeNothingW "not json" = none
      ∧ clientOnMessage decodeNothingW 7 "not json" = (7, [], [])
      ∧ handleCliMessage decodeNothing initServerSt "garbage\nlines"
          = (decodableLines decodeNothing "garbage\nlines").foldl
              processCliStep initServerSt
      ∧ (handleCliMessage decodeNothing initServerSt "garbage\nlines").cliConnected
          = initServerSt.cliConnected
      ∧ (handleCliMessage decodeNothing initServerSt "garbage\nlines").diags
          = initServerSt.diags :=
  ⟨rfl,
    (C5_malformed_dropped decodeNothingW 7 "not json" decodeNothing initServerSt
      "garbage\nlines" rfl).1,
    (C5_malformed_dropped decodeNothingW 7 "not json" decodeNothing initServerSt
      "garbage\nlines" rfl).2.1,
    (C5_malformed_dropped decodeNothingW 7 "not json" decodeNothing initServerSt
      "garbage\nlines" rfl).2.2.1,
    (C5_malformed_dropped decodeNothingW 7 "not json" decodeNothing initServerSt
      "garbage\nlines" rfl).2.2.2⟩

/-! ### Claim C8 -/

/-- Claim C8: `EventBus.emit` never lets a handler's exception escape —
its per-handler try/catch makes the whole loop run to completion — and
the handlers that receive the event are exactly the non-throwing ones,
in subscription order, regardless of any throwing handlers before or
between them. -/
theorem C8_fanout_isolation (hs : List Handler) (e : SDKMessage) :
    emit hs e = Except.ok ((hs.filter fun h => handlerOk h e).map Handler.hid)
      ∧ ∀ msg, emit hs e ≠ Except.error msg := by
  have hmain : emit hs e
      = Except.ok ((hs.filter fun h => handlerOk h e).map Handler.hid) := by
    induction hs with
    | nil => rfl
    | cons h rest ih =>
        cases hr : h.run e with
        | ok u =>
            simp [emit, emitStep, hr, ih, List.filter_cons, handlerOk, Option.toList]
        | error err =>
            simp [emit, emitStep, hr, ih, List.filter_cons, handlerOk, Option.toList]
  refine ⟨hmain, fun msg hcontra => ?_⟩
  rw [hmain] at hcontra
  cases hcontra

/-! ### Claim C10 -/

theorem qrun_cons (s : QueueSt) (e : QEvent) (evs : List QEvent) :
    qrun s (e :: evs) = qrun (qstep s e) evs := rfl

/-- The queue invariant: along any valid interleaving, the contents
handed to the loop followed by the still-queued contents equal the prior
such contents plus the arrivals, and while the loop is waiting the queue
is empty. -/
theorem qrun_invariant (evs : List QEvent) (s : QueueSt)
    (hq : s.pending = true → s.queue = [])
    (hv : validTrace s evs = true) :
    (qrun s evs).consumed ++ (qrun s evs).queue
        = s.consumed ++ s.queue ++ arrivals evs
      ∧ ((qrun s evs).pending = true → (qrun s evs).queue = []) := by
  induction evs generalizing s with
  | nil => exact ⟨by simp [qrun, arrivals], hq⟩
  | cons ev rest ih =>
      have hv' : validTrace (qstep s ev) rest = true := by
        simp only [validTrace, Bool.and_eq_true] at hv
        exact hv.2
      cases ev with
      | send c =>
          by_cases hp : s.pending = true
          · have hempty : s.queue = [] := hq hp
            have hstep : qstep s (QEvent.send c)
                = { s with pending := false, consumed := s.consumed ++ [c] } := by
              simp [qstep, sendToSdk, hp]
            rw [hstep] at hv'
            obtain ⟨h1, h2⟩ := ih _ (by simp) hv'
            rw [qrun_cons, hstep]
            refine ⟨?_, h2⟩
            rw [h1]
            simp [arrivals, List.filterMap_cons, hempty]
          · have hstep : qstep s (QEvent.send c)
                = { s with queue := s.queue ++ [c] } := by
              simp [qstep, sendToSdk, hp]
            rw [hstep] at hv'
            obtain ⟨h1, h2⟩ := ih _ (by simp [hp]) hv'
            rw [qrun_cons, hstep]
            refine ⟨?_, h2⟩
            rw [h1]
            simp [arrivals, List.filterMap_cons, List.append_assoc]
      | awaitMsg =>
          have hp : s.pending = false := by
            simp only [validTrace, Bool.and_eq_true] at hv
            have hg := hv.1
            simpa using hg
          cases hqu : s.queue with
          | nil =>
              have hstep : qstep s QEvent.awaitMsg = { s with pending := true } := by
                simp [qstep, sdkLoopAwait, hqu]
              rw [hstep] at hv'
              obtain ⟨h1, h2⟩ := ih _ (by simp [hqu]) hv'
              rw [qrun_cons, hstep]
              refine ⟨?_, h2⟩
              rw [h1]
              simp [arrivals, List.filterMap_cons, hqu]
          | cons c rest' =>
              have hstep : qstep s QEvent.awaitMsg
                  = { s with queue := rest', consumed := s.consumed ++ [c] } := by
                simp [qstep, sdkLoopAwait, hqu]
              rw [hstep] at hv'
              obtain ⟨h1, h2⟩ := ih _ (by simp [hp]) hv'
              rw [qrun_cons, hstep]
              refine ⟨?_, h2⟩
              rw [h1]
              simp [arrivals, List.filterMap_cons, hqu, List.append_assoc]

/-- Claim C10: along any valid interleaving of `sendToSdk` calls and
loop awaits, the contents consumed by the loop followed by the queued
remainder are exactly the submitted contents in submission order — so
the loop consumes every message at most once, in FIFO order, none is
lost (it is either consumed or still queued) and none is duplicated;
moreover the consumed list is literally the prefix of the arrival order,
and a waiting loop implies an empty queue (a message arriving while the
loop waits resolves it directly). -/
theorem C10_queue_fifo (evs : List QEvent) (hv : validTrace qinit evs = true) :
    (qrun qinit evs).consumed ++ (qrun qinit evs).queue = arrivals evs
      ∧ (qrun qinit evs).consumed
          = (arrivals evs).take (qrun qinit evs).consumed.length
      ∧ ((qrun qinit evs).pending = true → (qrun qinit evs).queue = []) := by
  have h := qrun_invariant evs qinit (by intro hcontra; cases hcontra) hv
  rcases h with ⟨h1, h2⟩
  have h1' : (qrun qinit evs).consumed ++ (qrun qinit evs).queue = arrivals evs := by
    simpa [qinit] using h1
  refine ⟨h1', ?_, h2⟩
  rw [← h1', List.take_left]

/-- Claim C10, witness: two messages queued while the loop is busy are
consumed in order, a third arriving while the loop waits resolves the
wait directly; nothing is lost or duplicated. -/
theorem C10_witness :
    validTrace qinit
        [QEvent.send "a", QEvent.send "b", QEvent.awaitMsg, QEvent.awaitMsg,
         QEvent.awaitMsg, QEvent.send "c"] = true
      ∧ (qrun qinit
            [QEvent.send "a", QEvent.send "b", QEvent.awaitMsg, QEvent.awaitMsg,
             QEvent.awaitMsg, QEvent.send "c"]).consumed
          ++ (qrun qinit
              [QEvent.send "a", QEvent.send "b", QEvent.awaitMsg, QEvent.awaitMsg,
               QEvent.awaitMsg, QEvent.send "c"]).queue
          = arrivals
              [QEvent.send "a", QEvent.send "b", QEvent.awaitMsg, QEvent.awaitMsg,
               QEvent.awaitMsg, QEvent.send "c"] :=
  ⟨by decide,
    (C10_queue_fifo
      [QEvent.send "a", QEvent.send "b", QEvent.awaitMsg, QEvent.awaitMsg,
       QEvent.awaitMsg, QEvent.send "c"] (by decide)).1⟩

end CompanionTui
